import Mathlib

/-
Verification of the accelerator request-group / ARQ core of this nova fork.

The development shallowly embeds the Python sources:
  * nova/accelerator/cyborg.py   (requester-id derivation, ARQ creation and
    correlation with resolved request groups, RFC6902 bind-patch encoding)
  * nova/pci/request.py          (flavor extra-spec request-group extraction)

Python exceptions are modelled with an explicit error type; network responses
are passed in as explicit arguments (the transport is an external
collaborator), with Option.none standing for a falsy response object.
-/

set_option maxRecDepth 4000

/-- Python exception values raised by the embedded code.  RuntimeError carries
its message; the bare assert statements raise AssertionError; iterating or
unpacking wrong shapes raises TypeError/ValueError; referencing an unbound
name raises NameError; a missing attribute raises AttributeError. -/
inductive PyError where
  | runtimeError (msg : String)
  | assertionError
  | typeError (msg : String)
  | valueError (msg : String)
  | nameError (missing : String)
  | attributeError (msg : String)
  deriving DecidableEq

/-- Python truthiness test of cyborg.py line 81/102: a device-profile name is
invalid iff it is None or the empty string. -/
def py_name_invalid : Option String → Bool
  | none => true
  | some s => s == ""

/-- Rendering of the name used by the %s format in the error messages
(str(None) is the string None). -/
def py_str_name : Option String → String
  | none => "None"
  | some s => s

/-- Embedding of get_device_profile_group_requester_id (cyborg.py lines
54-61): "device_profile_" + str(dp_group_id).  The group id attached to an
ARQ by the Cyborg API is an integer. -/
def get_device_profile_group_requester_id (dp_group_id : Nat) : String :=
  "device_profile_" ++ toString dp_group_id

/-- A device profile as returned under the device_profiles key: a dict with
name, uuid and a list of flat string-to-string groups (cyborg.py module
notes, lines 29-42). -/
structure DeviceProfile where
  name : String
  uuid : String
  groups : List (List (String × String))
  deriving DecidableEq

/-- Embedding of _CyborgClient.get_device_profile_groups (cyborg.py lines
72-99).  The argument r models the GET response: none is a falsy response;
some j carries j = r.json().get(device_profiles), itself none when the key is
absent.  The result pairs the list of LOG.error messages emitted with the
returned group list. -/
def get_device_profile_groups (dp_name : Option String)
    (r : Option (Option (List DeviceProfile))) :
    Except PyError (List String × List (List (String × String))) :=
  if py_name_invalid dp_name then
    .error (.runtimeError ("Device profile name is invalid " ++ py_str_name dp_name))
  else
    match r with
    | none => .error (.runtimeError ("Failed to get device profile from Cyborg"))
    | some none => .ok (["Expected 1 device profile but got nothing"], [])
    | some (some dp_list) =>
      match dp_list with
      | [dp] => .ok ([], dp.groups)
      | l => .ok (["Expected 1 device profile but got " ++ toString l.length], [])

/-- An accelerator request record.  The Cyborg response carries
device_profile_group_id; the device_rp_uuid key is (over)written by the
correlation pass (cyborg.py line 128/134). -/
structure Arq where
  device_profile_group_id : Nat
  device_rp_uuid : Option String
  deriving DecidableEq

/-- A numbered request group of the request spec as consumed by the
correlation pass: its requester_id and the provider UUIDs assigned by
placement (cyborg.py lines 131-134 access exactly these two attributes). -/
structure RequestGroup where
  requester_id : String
  provider_uuids : List String
  deriving DecidableEq

/-- Embedding of _CyborgClient._create_arqs (cyborg.py lines 101-112).  The
argument r models the POST response: none is a falsy response; some j carries
j = r.json().get(arqs), none when the key is absent (Python then returns
None). -/
def create_arqs (dp_name : Option String) (r : Option (Option (List Arq))) :
    Except PyError (Option (List Arq)) :=
  if py_name_invalid dp_name then
    .error (.runtimeError ("Device profile name is invalid " ++ py_str_name dp_name))
  else
    match r with
    | none => .error (.runtimeError ("Failed to get Cyborg accelerator requests"))
    | some arqs => .ok arqs

/-- Embedding of the inner for rg in req_groups loop of cyborg.py lines
131-134: scan every request group in order; on each group whose requester_id
equals the key, assert that it has exactly one provider UUID and overwrite
the accumulator with that UUID. -/
def scan_groups (key : String) (acc : Option String) :
    List RequestGroup → Except PyError (Option String)
  | [] => .ok acc
  | rg :: rest =>
    if rg.requester_id = key then
      match rg.provider_uuids with
      | [u] => scan_groups key (some u) rest
      | _ => .error .assertionError
    else
      scan_groups key acc rest

/-- Embedding of the body of the outer loop of cyborg.py lines 126-135 for a
single ARQ: set device_rp_uuid to None, scan the request groups, and assert
that a provider was found. -/
def resolve_arq (req_groups : List RequestGroup) (arq : Arq) : Except PyError Arq :=
  match scan_groups (get_device_profile_group_requester_id arq.device_profile_group_id)
      none req_groups with
  | .error e => .error e
  | .ok none => .error .assertionError
  | .ok (some u) => .ok { arq with device_rp_uuid := some u }

/-- Embedding of the outer for arq in arqs loop of cyborg.py lines 126-135:
each ARQ in order is resolved in place; the first failing assertion aborts
the whole call, so no partial list is ever returned. -/
def resolve_arqs_loop (req_groups : List RequestGroup) :
    List Arq → Except PyError (List Arq)
  | [] => .ok []
  | a :: rest =>
    match resolve_arq req_groups a with
    | .error e => .error e
    | .ok o =>
      match resolve_arqs_loop req_groups rest with
      | .error e => .error e
      | .ok os => .ok (o :: os)

/-- Embedding of _CyborgClient.create_arqs_and_match_resource_providers
(cyborg.py lines 114-137).  Iterating over a None arqs value raises
TypeError in Python. -/
def create_arqs_and_match_resource_providers (dp_name : Option String)
    (req_groups : List RequestGroup) (r : Option (Option (List Arq))) :
    Except PyError (List Arq) :=
  match create_arqs dp_name r with
  | .error e => .error e
  | .ok none => .error (.typeError ("NoneType object is not iterable"))
  | .ok (some arqs) => resolve_arqs_loop req_groups arqs

/-- One RFC 6902 patch operation as built by bind_arqs (cyborg.py lines
159-162). -/
structure PatchOp where
  path : String
  op : String
  value : String
  deriving DecidableEq

/-- The patch sequence built for one ARQ binding: one add operation per
field, with path "/" + field and the field value (cyborg.py lines 159-162).
A binding dict is modelled as its insertion-ordered item list. -/
def arq_bind_patch (binding : List (String × String)) : List PatchOp :=
  binding.map (fun fv => ⟨"/" ++ fv.1, "add", fv.2⟩)

/-- The complete patch_list batch keyed by ARQ uuid (cyborg.py lines
157-163). -/
def bind_arqs_patch_list (bindings : List (String × List (String × String))) :
    List (String × List PatchOp) :=
  bindings.map (fun b => (b.1, arq_bind_patch b.2))

/-- Embedding of _CyborgClient.bind_arqs (cyborg.py lines 139-168).  The
first component is the body of the single PATCH request submitted; the
second models the response check (r none is a falsy response). -/
def bind_arqs (bindings : List (String × List (String × String))) (r : Option Unit) :
    List (String × List PatchOp) × Except PyError Unit :=
  (bind_arqs_patch_list bindings,
    match r with
    | none => .error (.runtimeError ("Failed to bind Cyborg accelerator requests"))
    | some _ => .ok ())

/-- Modelled from the spec: nova.api.openstack.placement.lib.RequestGroup is
code of this repository that is not under src/ (request.py line 226 calls its
constructor).  Per the spec data model a placement-side Request Group starts
empty and carries resources (class to non-negative amount) and a set of
required traits; the set is modelled as an insertion-ordered duplicate-free
list. -/
structure PlacementRequestGroup where
  use_same_provider : Bool
  resources : List (String × Nat)
  required_traits : List String
  deriving DecidableEq

/-- Kernel-reducible embedding of str.startswith, on the character lists of
the two strings. -/
def list_starts_with : List Char → List Char → Bool
  | [], _ => true
  | _ :: _, [] => false
  | p :: ps, c :: cs => if p = c then list_starts_with ps cs else false

/-- A string starts with the given word. -/
def str_starts_with (s pre : String) : Bool := list_starts_with pre.data s.data

/-- ASCII digit test used by the embedded regular expression. -/
def py_is_digit (c : Char) : Bool := ('0' ≤ c && c ≤ '9')

/-- ASCII nonzero digit test used by the embedded regular expression. -/
def py_is_nonzero_digit (c : Char) : Bool := ('1' ≤ c && c ≤ '9')

/-- Greedy match of the optional group suffix ([1-9][0-9]*)? of XS_KEYPAT
(request.py line 59), returning the captured suffix (none when absent) and
the remaining characters.  Greediness is exact here: a shorter digit run
could never be followed by the mandatory colon. -/
def parse_group_suffix : List Char → Option String × List Char
  | [] => (none, [])
  | c :: rest =>
    if py_is_nonzero_digit c then
      (some (String.mk (c :: rest.takeWhile py_is_digit)), rest.dropWhile py_is_digit)
    else (none, c :: rest)

/-- Match of the trailing (.*)$ of XS_KEYPAT under Python re semantics
without DOTALL/MULTILINE: the dot never matches a newline and the dollar
also accepts a position just before a single trailing newline. -/
def regex_dot_star_tail (tail : List Char) : Option String :=
  match tail.dropWhile (fun c => c != '\n') with
  | [] => some (String.mk (tail.takeWhile (fun c => c != '\n')))
  | ['\n'] => some (String.mk (tail.takeWhile (fun c => c != '\n')))
  | _ => none

/-- Attempt to match XS_KEYPAT with a fixed first alternative (resources or
trait): the key must start with that word, then carry an optional [1-9][0-9]*
suffix, then a colon, then the (.*)$ tail. -/
def xs_key_try_kind (kind : String) (key : String) :
    Option (String × Option String × String) :=
  if str_starts_with key kind then
    match parse_group_suffix ((key.toList).drop kind.length) with
    | (gp, rest) =>
      match rest with
      | ':' :: tail =>
        match regex_dot_star_tail tail with
        | some v => some (kind, gp, v)
        | none => none
      | _ => none
  else none

/-- Embedding of XS_KEYPAT.match (request.py lines 57-59, used at line 277):
the pattern (resources|trait)([1-9][0-9]*)?:(.*) anchored at the start,
returning the three captured groups. -/
def xs_key_match (key : String) : Option (String × Option String × String) :=
  match xs_key_try_kind ("resources") key with
  | some m => some m
  | none => xs_key_try_kind ("trait") key

/-- The lazily built _rg_by_id mapping (request.py line 222): an
insertion-ordered association list from group identifier (the optional
numeric suffix) to its request group. -/
abbrev RgState := List (Option String × PlacementRequestGroup)

/-- Truthiness of the group identifier, as passed to
use_same_provider=bool(ident) at request.py line 226. -/
def py_bool_ident : Option String → Bool
  | none => false
  | some s => !(s == "")

/-- Embedding of get_request_group (request.py lines 224-228) restricted to
its caching effect: ensure a group exists for the identifier, creating it
lazily on first use. -/
def ensure_request_group (st : RgState) (ident : Option String) : RgState :=
  if (st.find? (fun e => e.1 == ident)).isSome then st
  else st ++ [(ident, ⟨py_bool_ident ident, [], []⟩)]

/-- Pointwise update of the cached group of one identifier. -/
def rg_state_update (st : RgState) (ident : Option String)
    (f : PlacementRequestGroup → PlacementRequestGroup) : RgState :=
  st.map (fun e => if e.1 == ident then (e.1, f e.2) else e)

/-- Python set.add on the trait set, modelled on the insertion-ordered
duplicate-free list. -/
def py_set_add (l : List String) (x : String) : List String :=
  if l.contains x then l else l ++ [x]

/-- Embedding of _add_trait (request.py lines 251-255):
get_request_group(groupid).required_traits.add(trait_name); the trait value
is ignored. -/
def add_trait (st : RgState) (groupid : Option String) (trait_name : String) : RgState :=
  rg_state_update (ensure_request_group st groupid) groupid
    (fun g => { g with required_traits := py_set_add g.required_traits trait_name })

/-- Embedding of one iteration of the extra-spec loop of
get_pci_requests_from_flavor (request.py lines 276-289): keys not matching
XS_KEYPAT are skipped; captured names lacking the CUSTOM_FPGA_/CUSTOM_QAT_/
CUSTOM_CYBORG_ prefixes are skipped; a resources match evaluates
ret._add_resource where the name ret is unbound, raising NameError; a trait
match adds the trait to its group. -/
def extract_step (st : RgState) (entry : String × String) : Except PyError RgState :=
  match xs_key_match entry.1 with
  | none => .ok st
  | some m =>
    let v := m.2.2
    if !(str_starts_with v ("CUSTOM_FPGA_")) && !(str_starts_with v ("CUSTOM_QAT_")) &&
        !(str_starts_with v ("CUSTOM_CYBORG_")) then
      .ok st
    else if m.1 == "resources" then
      .error (.nameError ("ret"))
    else if m.1 == "trait" then
      .ok (add_trait st m.2.1 v)
    else
      .ok st

/-- The full extra-spec extraction pass (the for res, val loop of request.py
lines 276-289) over the insertion-ordered items of the extra_specs dict,
threading _rg_by_id. -/
def extract_groups_loop (st : RgState) :
    List (String × String) → Except PyError RgState
  | [] => .ok st
  | e :: rest =>
    match extract_step st e with
    | .error err => .error err
    | .ok st2 => extract_groups_loop st2 rest

/-- Extraction of the request-group mapping from an extra_specs dict,
starting from the empty _rg_by_id of request.py line 222. -/
def extract_groups (specs : List (String × String)) : Except PyError RgState :=
  extract_groups_loop [] specs

/-- Embedding of the final for k, v in _rg_by_id loop (request.py lines
312-321).  Iterating a dict yields its keys, so each key is unpacked into
two variables: None is not iterable (TypeError); a string key unpacks only
when its length is exactly 2 (ValueError otherwise), after which the body
dereferences required_traits on a one-character string (AttributeError).
The loop body therefore raises on the first key whenever the mapping is
non-empty. -/
def rg_iter_keys_unpack : List (Option String) → Except PyError Unit
  | [] => .ok ()
  | none :: _ => .error (.typeError ("cannot unpack non-iterable NoneType object"))
  | some s :: _ =>
    if s.length == 2 then
      .error (.attributeError ("str object has no attribute required_traits"))
    else if s.length < 2 then
      .error (.valueError ("not enough values to unpack"))
    else
      .error (.valueError ("too many values to unpack"))

/-- A PCI request as returned by get_pci_requests_from_flavor; only
constructed by branches this embedding proves unreachable, so the two fields
suffice. -/
structure InstancePCIRequest where
  count : Nat
  alias_name : String
  deriving DecidableEq

/-- Embedding of the non-alias branch of get_pci_requests_from_flavor
(request.py lines 263-326): run the extraction pass; then the
claim_fpgas network call is guarded by len(cyborg_resources) > 2 where
cyborg_resources always holds exactly its two initial keys (the update at
line 290 is commented out), so the guard is statically false — the network
response claim_resp is modelled as an oracle consulted only inside that dead
branch; finally iterate _rg_by_id and return the collected requests. -/
def get_pci_requests_from_flavor (claim_resp : Option (List (String × String)))
    (extra_specs : List (String × String)) : Except PyError (List InstancePCIRequest) :=
  match extract_groups extra_specs with
  | .error e => .error e
  | .ok st =>
    let cyborg_resources : List (String × Option String) :=
      [("instance_uuid", none), ("host", none)]
    let pci_requests : List InstancePCIRequest :=
      if cyborg_resources.length > 2 then
        match claim_resp with
        | none => []
        | some deployables => deployables.map (fun d => ⟨1, d.1⟩)
      else []
    match rg_iter_keys_unpack (st.map Prod.fst) with
    | .error e => .error e
    | .ok _ => .ok pci_requests

/-- The last request group in iteration order whose requester_id equals the
key: since the scan of cyborg.py lines 131-134 overwrites on every match,
this is the group whose provider UUID ends up on the ARQ. -/
def last_match (key : String) : List RequestGroup → Option RequestGroup
  | [] => none
  | rg :: rest =>
    match last_match key rest with
    | some r => some r
    | none => if rg.requester_id = key then some rg else none

/-- A group returned by last_match is a member with the matching
requester_id. -/
lemma last_match_mem {key : String} : ∀ {rgs : List RequestGroup} {rg : RequestGroup},
    last_match key rgs = some rg → rg ∈ rgs ∧ rg.requester_id = key := by
  intro rgs
  induction rgs with
  | nil => intro rg h; simp [last_match] at h
  | cons a rest ih =>
    intro rg h
    rw [last_match] at h
    cases hlm : last_match key rest with
    | some r =>
      rw [hlm] at h
      injection h with h2
      subst h2
      have hr := ih hlm
      exact ⟨List.mem_cons_of_mem _ hr.1, hr.2⟩
    | none =>
      rw [hlm] at h
      by_cases hk : a.requester_id = key
      · rw [if_pos hk] at h
        injection h with h2
        subst h2
        exact ⟨List.mem_cons_self _ _, hk⟩
      · rw [if_neg hk] at h
        cases h

/-- When last_match finds nothing, no group matches. -/
lemma last_match_none {key : String} : ∀ {rgs : List RequestGroup},
    last_match key rgs = none → ∀ rg ∈ rgs, rg.requester_id ≠ key := by
  intro rgs
  induction rgs with
  | nil => intro _ rg hrg; simp at hrg
  | cons a rest ih =>
    intro h rg hrg
    rw [last_match] at h
    cases hlm : last_match key rest with
    | some r => rw [hlm] at h; cases h
    | none =>
      rw [hlm] at h
      by_cases hk : a.requester_id = key
      · rw [if_pos hk] at h; cases h
      · rcases List.mem_cons.mp hrg with rfl | hmem
        · exact hk
        · exact ih hlm rg hmem

/-- When every matching group carries exactly one provider UUID, the scan
succeeds and yields the provider of the last matching group, falling back to
the accumulator when no group matches. -/
lemma scan_groups_eq {key : String} : ∀ (rgs : List RequestGroup) (acc : Option String),
    (∀ rg ∈ rgs, rg.requester_id = key → ∃ u, rg.provider_uuids = [u]) →
    scan_groups key acc rgs =
      .ok (match last_match key rgs with
           | none => acc
           | some rg => rg.provider_uuids.head?) := by
  intro rgs
  induction rgs with
  | nil => intro acc _; rfl
  | cons a rest ih =>
    intro acc h
    by_cases hk : a.requester_id = key
    · obtain ⟨u, hu⟩ := h a (List.mem_cons_self _ _) hk
      rw [scan_groups, if_pos hk, hu]
      show scan_groups key (some u) rest = _
      rw [ih (some u) (fun rg hrg hkey => h rg (List.mem_cons_of_mem _ hrg) hkey)]
      rw [last_match]
      cases hlm : last_match key rest with
      | some r => rfl
      | none => simp [hk, hu]
    · rw [scan_groups, if_neg hk]
      rw [ih acc (fun rg hrg hkey => h rg (List.mem_cons_of_mem _ hrg) hkey)]
      rw [last_match]
      cases hlm : last_match key rest with
      | some r => rfl
      | none => simp [hk]

/-- Any matching group carrying a provider list of length other than one
makes the scan fail with an assertion error. -/
lemma scan_groups_error {key : String} : ∀ (rgs : List RequestGroup) (acc : Option String),
    (∃ rg ∈ rgs, rg.requester_id = key ∧ rg.provider_uuids.length ≠ 1) →
    ∃ e, scan_groups key acc rgs = .error e := by
  intro rgs
  induction rgs with
  | nil => intro acc h; simp at h
  | cons a rest ih =>
    intro acc h
    by_cases hk : a.requester_id = key
    · cases hpu : a.provider_uuids with
      | nil => exact ⟨.assertionError, by rw [scan_groups, if_pos hk, hpu]⟩
      | cons u us =>
        cases us with
        | nil =>
          rcases h with ⟨rg, hmem, hkey, hlen⟩
          rcases List.mem_cons.mp hmem with rfl | hmem2
          · rw [hpu] at hlen; simp at hlen
          · obtain ⟨e, he⟩ := ih (some u) ⟨rg, hmem2, hkey, hlen⟩
            exact ⟨e, by rw [scan_groups, if_pos hk, hpu]; exact he⟩
        | cons u2 us2 =>
          exact ⟨.assertionError, by rw [scan_groups, if_pos hk, hpu]⟩
    · rcases h with ⟨rg, hmem, hkey, hlen⟩
      rcases List.mem_cons.mp hmem with rfl | hmem2
      · exact absurd hkey hk
      · obtain ⟨e, he⟩ := ih acc ⟨rg, hmem2, hkey, hlen⟩
        exact ⟨e, by rw [scan_groups, if_neg hk]; exact he⟩

/-- A successfully resolved ARQ keeps its group id and carries a non-empty
provider UUID. -/
lemma resolve_arq_ok {rgs : List RequestGroup} {a o : Arq}
    (h : resolve_arq rgs a = .ok o) :
    o.device_rp_uuid ≠ none ∧ o.device_profile_group_id = a.device_profile_group_id := by
  unfold resolve_arq at h
  cases hsc : scan_groups (get_device_profile_group_requester_id a.device_profile_group_id)
      none rgs with
  | error e => rw [hsc] at h; cases h
  | ok v =>
    rw [hsc] at h
    cases v with
    | none => cases h
    | some u =>
      injection h with h2
      subst h2
      exact ⟨by simp, rfl⟩

/-- When every matching group is a singleton and at least one group matches,
resolution succeeds and attaches the provider of the last matching group. -/
lemma resolve_arq_eq {rgs : List RequestGroup} {a : Arq}
    (hs : ∀ rg ∈ rgs,
      rg.requester_id = get_device_profile_group_requester_id a.device_profile_group_id →
      ∃ u, rg.provider_uuids = [u])
    (hex : ∃ rg ∈ rgs,
      rg.requester_id = get_device_profile_group_requester_id a.device_profile_group_id) :
    ∃ rg, last_match (get_device_profile_group_requester_id a.device_profile_group_id) rgs
        = some rg ∧
      resolve_arq rgs a = .ok { a with device_rp_uuid := rg.provider_uuids.head? } := by
  cases hlm : last_match (get_device_profile_group_requester_id a.device_profile_group_id)
      rgs with
  | none =>
    rcases hex with ⟨rg, hmem, hkey⟩
    exact absurd hkey (last_match_none hlm rg hmem)
  | some rg =>
    refine ⟨rg, rfl, ?_⟩
    have hmm := last_match_mem hlm
    obtain ⟨u, hu⟩ := hs rg hmm.1 hmm.2
    unfold resolve_arq
    rw [scan_groups_eq rgs none hs, hlm]
    simp [hu]

/-- The resolve loop succeeds pointwise when each element resolves. -/
lemma resolve_arqs_loop_ok {rgs : List RequestGroup} (g : Arq → Arq) :
    ∀ l : List Arq, (∀ a ∈ l, resolve_arq rgs a = .ok (g a)) →
    resolve_arqs_loop rgs l = .ok (l.map g) := by
  intro l
  induction l with
  | nil => intro _; rfl
  | cons a rest ih =>
    intro h
    rw [resolve_arqs_loop, h a (List.mem_cons_self _ _),
      ih (fun x hx => h x (List.mem_cons_of_mem _ hx))]
    rfl

/-- One failing element aborts the whole resolve loop with an error. -/
lemma resolve_arqs_loop_error {rgs : List RequestGroup} :
    ∀ l : List Arq, (∃ a ∈ l, ∃ e, resolve_arq rgs a = .error e) →
    ∃ e2, resolve_arqs_loop rgs l = .error e2 := by
  intro l
  induction l with
  | nil => intro h; simp at h
  | cons a rest ih =>
    intro h
    cases hfa : resolve_arq rgs a with
    | error e => exact ⟨e, by rw [resolve_arqs_loop, hfa]⟩
    | ok v =>
      rcases h with ⟨x, hmem, e, he⟩
      rcases List.mem_cons.mp hmem with rfl | hmem2
      · rw [hfa] at he; cases he
      · obtain ⟨e2, he2⟩ := ih ⟨x, hmem2, e, he⟩
        exact ⟨e2, by rw [resolve_arqs_loop, hfa, he2]⟩

/-- Every element of a successful resolve-loop output comes from resolving
one input element. -/
lemma resolve_arqs_loop_mem {rgs : List RequestGroup} :
    ∀ {l : List Arq} {out : List Arq}, resolve_arqs_loop rgs l = .ok out →
    ∀ o ∈ out, ∃ a ∈ l, resolve_arq rgs a = .ok o := by
  intro l
  induction l with
  | nil =>
    intro out h o ho
    rw [resolve_arqs_loop] at h
    injection h with h2
    subst h2
    simp at ho
  | cons a rest ih =>
    intro out h o ho
    rw [resolve_arqs_loop] at h
    cases hfa : resolve_arq rgs a with
    | error e => rw [hfa] at h; cases h
    | ok v =>
      rw [hfa] at h
      cases hrest : resolve_arqs_loop rgs rest with
      | error e => rw [hrest] at h; cases h
      | ok os =>
        rw [hrest] at h
        injection h with h2
        subst h2
        rcases List.mem_cons.mp ho with rfl | ho2
        · exact ⟨a, List.mem_cons_self _ _, hfa⟩
        · obtain ⟨x, hx, hres⟩ := ih hrest o ho2
          exact ⟨x, List.mem_cons_of_mem _ hx, hres⟩

/-- Numeric value of a decimal digit character. -/
def digit_char_val (c : Char) : Nat := c.toNat - 48

/-- Decimal value of a digit string, folded from the left on top of an
accumulator. -/
def digits_val_aux : Nat → List Char → Nat
  | acc, [] => acc
  | acc, c :: cs => digits_val_aux (acc * 10 + digit_char_val c) cs

lemma digit_char_val_digitChar {d : Nat} (h : d < 10) :
    digit_char_val (Nat.digitChar d) = d := by
  interval_cases d <;> decide

lemma digits_val_aux_append_single (c : Char) :
    ∀ (xs : List Char) (acc : Nat),
    digits_val_aux acc (xs ++ [c]) = (digits_val_aux acc xs) * 10 + digit_char_val c := by
  intro xs
  induction xs with
  | nil => intro acc; rfl
  | cons x rest ih => intro acc; exact ih (acc * 10 + digit_char_val x)

lemma toDigitsCore_append : ∀ (f n : Nat) (ds : List Char), n < f →
    Nat.toDigitsCore 10 f n ds = Nat.toDigitsCore 10 f n [] ++ ds := by
  intro f
  induction f with
  | zero => intro n ds h; exact absurd h (Nat.not_lt_zero n)
  | succ f ih =>
    intro n ds h
    by_cases hx : n / 10 = 0
    · simp [Nat.toDigitsCore, hx]
    · have hn0 : n ≠ 0 := fun h0 => hx (by simp [h0])
      have hlt : n / 10 < f := by
        have hd : n / 10 < n := Nat.div_lt_self (Nat.pos_of_ne_zero hn0) (by omega)
        omega
      simp only [Nat.toDigitsCore, hx, if_false]
      rw [ih (n / 10) (Nat.digitChar (n % 10) :: ds) hlt,
        ih (n / 10) (Nat.digitChar (n % 10) :: []) hlt]
      simp

lemma toDigitsCore_val : ∀ (f n : Nat), n < f →
    digits_val_aux 0 (Nat.toDigitsCore 10 f n []) = n := by
  intro f
  induction f with
  | zero => intro n h; exact absurd h (Nat.not_lt_zero n)
  | succ f ih =>
    intro n h
    by_cases hx : n / 10 = 0
    · have hn10 : n < 10 := by omega
      simp only [Nat.toDigitsCore, hx, if_true]
      show digits_val_aux (0 * 10 + digit_char_val (Nat.digitChar (n % 10))) [] = n
      rw [digit_char_val_digitChar (by omega : n % 10 < 10)]
      show 0 * 10 + n % 10 = n
      omega
    · have hn0 : n ≠ 0 := fun h0 => hx (by simp [h0])
      have hlt : n / 10 < f := by
        have hd : n / 10 < n := Nat.div_lt_self (Nat.pos_of_ne_zero hn0) (by omega)
        omega
      simp only [Nat.toDigitsCore, hx, if_false]
      rw [toDigitsCore_append f (n / 10) (Nat.digitChar (n % 10) :: []) hlt]
      rw [digits_val_aux_append_single (Nat.digitChar (n % 10)) (Nat.toDigitsCore 10 f (n / 10) []) 0]
      rw [ih (n / 10) hlt, digit_char_val_digitChar (by omega : n % 10 < 10)]
      omega

lemma nat_repr_inj {m n : Nat} (h : Nat.repr m = Nat.repr n) : m = n := by
  have hl : Nat.toDigitsCore 10 (m + 1) m [] = Nat.toDigitsCore 10 (n + 1) n [] := by
    have h2 := congrArg String.data h
    simpa [Nat.repr, Nat.toDigits, List.asString] using h2
  have hm := toDigitsCore_val (m + 1) m (Nat.lt_succ_self m)
  have hn := toDigitsCore_val (n + 1) n (Nat.lt_succ_self n)
  rw [← hm, ← hn, hl]

lemma nat_toString_inj {m n : Nat} (h : toString m = toString n) : m = n :=
  nat_repr_inj h

/-- C3: get_device_profile_group_requester_id is a pure total function whose
value is "device_profile_" followed by the decimal string of the group id,
and distinct group ids always yield distinct requester ids. -/
theorem C3_requester_id_pure_and_injective :
    (∀ g : Nat, get_device_profile_group_requester_id g
      = "device_profile_" ++ toString g) ∧
    (∀ g1 g2 : Nat, g1 ≠ g2 →
      get_device_profile_group_requester_id g1 ≠
        get_device_profile_group_requester_id g2) := by
  constructor
  · intro g
    rfl
  · intro g1 g2 hne heq
    apply hne
    apply nat_toString_inj
    have h2 := congrArg String.data heq
    simp only [get_device_profile_group_requester_id] at h2
    rw [String.data_append, String.data_append] at h2
    exact String.ext (List.append_cancel_left h2)

/-- Witness for C3 at the concrete group ids 1 and 2. -/
theorem C3_requester_id_witness :
    get_device_profile_group_requester_id 1 ≠ get_device_profile_group_requester_id 2 :=
  C3_requester_id_pure_and_injective.2 1 2 (by decide)

/-- C4: bind_arqs turns every ARQ binding into exactly one add operation per
field with path slash-field and the field value, keyed by the ARQ id, all
collected into the single submitted batch; in particular the documented
two-field example produces exactly the two expected add operations under
key arq-1. -/
theorem C4_bind_arqs_patch_protocol :
    (∀ (bindings : List (String × List (String × String))) (r : Option Unit)
      (u : String) (ops : List PatchOp),
      (u, ops) ∈ (bind_arqs bindings r).1 →
      ∃ b ∈ bindings, b.1 = u ∧
        List.Forall₂ (fun (fv : String × String) (o : PatchOp) =>
          o.op = "add" ∧ o.path = "/" ++ fv.1 ∧ o.value = fv.2) b.2 ops) ∧
    (∀ (bindings : List (String × List (String × String))) (r : Option Unit),
      ((bind_arqs bindings r).1).map Prod.fst = bindings.map Prod.fst) ∧
    (∀ r : Option Unit,
      (bind_arqs [("arq-1", [("host_name", "h1"), ("instance_uuid", "i1")])] r).1 =
        [("arq-1", [⟨"/host_name", "add", "h1"⟩, ⟨"/instance_uuid", "add", "i1"⟩])]) := by
  refine ⟨?_, ?_, ?_⟩
  · intro bindings r u ops hmem
    simp only [bind_arqs, bind_arqs_patch_list] at hmem
    rcases List.mem_map.mp hmem with ⟨b, hb, heq⟩
    have h1 : b.1 = u := congrArg Prod.fst heq
    have h2 : arq_bind_patch b.2 = ops := congrArg Prod.snd heq
    refine ⟨b, hb, h1, ?_⟩
    rw [← h2, arq_bind_patch]
    rw [List.forall₂_map_right_iff]
    rw [List.forall₂_same]
    intro fv _
    exact ⟨rfl, rfl, rfl⟩
  · intro bindings r
    simp [bind_arqs, bind_arqs_patch_list]
  · intro r
    rfl

/-- Witness for C4 at the documented two-field binding example. -/
theorem C4_bind_arqs_witness :
    ∃ b ∈ [("arq-1", [("host_name", "h1"), ("instance_uuid", "i1")])],
      b.1 = "arq-1" ∧
      List.Forall₂ (fun (fv : String × String) (o : PatchOp) =>
        o.op = "add" ∧ o.path = "/" ++ fv.1 ∧ o.value = fv.2) b.2
        [⟨"/host_name", "add", "h1"⟩, ⟨"/instance_uuid", "add", "i1"⟩] :=
  C4_bind_arqs_patch_protocol.1
    [("arq-1", [("host_name", "h1"), ("instance_uuid", "i1")])] (some ())
    ("arq-1") [⟨"/host_name", "add", "h1"⟩, ⟨"/instance_uuid", "add", "i1"⟩]
    (by decide)

/-- C7: a device-profile lookup that finds zero or more than one profile (or
a response without the device_profiles key) returns an empty group list
together with a logged diagnostic instead of raising, and a non-empty group
list is only ever returned when exactly one profile was found. -/
theorem C7_profile_lookup_requires_single_profile :
    (∀ (name : String) (dps : List DeviceProfile), name ≠ "" → dps.length ≠ 1 →
      get_device_profile_groups (some name) (some (some dps)) =
        .ok (["Expected 1 device profile but got " ++ toString dps.length], [])) ∧
    (∀ name : String, name ≠ "" →
      get_device_profile_groups (some name) (some none) =
        .ok (["Expected 1 device profile but got nothing"], [])) ∧
    (∀ (dp_name : Option String) (r : Option (Option (List DeviceProfile)))
      (logs : List String) (groups : List (List (String × String))),
      get_device_profile_groups dp_name r = .ok (logs, groups) → groups ≠ [] →
      logs = [] ∧ ∃ dp, r = some (some [dp]) ∧ groups = dp.groups) := by
  refine ⟨?_, ?_, ?_⟩
  · intro name dps hname hlen
    have hinv : py_name_invalid (some name) = false := by
      simp [py_name_invalid, hname]
    rcases dps with _ | ⟨a, _ | ⟨b, t⟩⟩
    · simp [get_device_profile_groups, hinv]
    · simp at hlen
    · simp [get_device_profile_groups, hinv]
  · intro name hname
    have hinv : py_name_invalid (some name) = false := by
      simp [py_name_invalid, hname]
    simp [get_device_profile_groups, hinv]
  · intro dp_name r logs groups h hne
    by_cases hinv : py_name_invalid dp_name = true
    · simp [get_device_profile_groups, hinv] at h
    · rw [Bool.not_eq_true] at hinv
      rcases r with _ | ⟨_ | dpl⟩
      · simp [get_device_profile_groups, hinv] at h
      · simp [get_device_profile_groups, hinv] at h
        exact absurd h.2 hne
      · rcases dpl with _ | ⟨dp, _ | ⟨dp2, t⟩⟩
        · simp [get_device_profile_groups, hinv] at h
          exact absurd h.2 hne
        · simp [get_device_profile_groups, hinv] at h
          exact ⟨h.1, dp, rfl, h.2.symm⟩
        · simp [get_device_profile_groups, hinv] at h
          exact absurd h.2 hne

/-- Witness for C7 at a zero-profile response. -/
theorem C7_profile_lookup_witness :
    get_device_profile_groups (some ("mydp")) (some (some ([] : List DeviceProfile))) =
      .ok (["Expected 1 device profile but got " ++
        toString (List.length ([] : List DeviceProfile))], []) :=
  C7_profile_lookup_requires_single_profile.1 ("mydp") [] (by decide) (by decide)

/-- C8: the three documented failure classes of the resolve path are raised
as pairwise distinct error values: an invalid profile name raises the
invalid-argument RuntimeError; a falsy create response raises the
request-creation RuntimeError (and a response without usable arq data
raises a TypeError), both distinguishable from the invalid-argument error;
a failed correlation raises the AssertionError, distinct from all of
them. -/
theorem C8_failure_kinds_distinct :
    (∀ (rgs : List RequestGroup) (r : Option (Option (List Arq))),
      create_arqs_and_match_resource_providers none rgs r =
        .error (.runtimeError ("Device profile name is invalid None")) ∧
      create_arqs_and_match_resource_providers (some ("")) rgs r =
        .error (.runtimeError ("Device profile name is invalid "))) ∧
    (∀ (name : String) (rgs : List RequestGroup), name ≠ "" →
      create_arqs_and_match_resource_providers (some name) rgs none =
        .error (.runtimeError ("Failed to get Cyborg accelerator requests"))) ∧
    (∀ (name : String) (rgs : List RequestGroup), name ≠ "" →
      create_arqs_and_match_resource_providers (some name) rgs (some none) =
        .error (.typeError ("NoneType object is not iterable"))) ∧
    (create_arqs_and_match_resource_providers (some ("dp1")) []
      (some (some [⟨5, none⟩])) = .error .assertionError) ∧
    ((PyError.runtimeError ("Device profile name is invalid None") ≠
        .runtimeError ("Failed to get Cyborg accelerator requests")) ∧
      (PyError.runtimeError ("Device profile name is invalid None") ≠ .assertionError) ∧
      (PyError.runtimeError ("Failed to get Cyborg accelerator requests") ≠
        .assertionError) ∧
      (PyError.runtimeError ("Device profile name is invalid None") ≠
        .typeError ("NoneType object is not iterable")) ∧
      (PyError.typeError ("NoneType object is not iterable") ≠ .assertionError)) := by
  refine ⟨?_, ?_, ?_, ?_, ?_⟩
  · intro rgs r
    constructor <;> rfl
  · intro name rgs hname
    have hinv : (name == "") = false := beq_eq_false_iff_ne.mpr hname
    simp [create_arqs_and_match_resource_providers, create_arqs, py_name_invalid, hinv]
  · intro name rgs hname
    have hinv : (name == "") = false := beq_eq_false_iff_ne.mpr hname
    simp [create_arqs_and_match_resource_providers, create_arqs, py_name_invalid, hinv]
  · rfl
  · refine ⟨?_, ?_, ?_, ?_, ?_⟩ <;> decide

/-- Witness for C8 at a concrete valid name with a falsy create response. -/
theorem C8_failure_kinds_witness :
    create_arqs_and_match_resource_providers (some ("dp2")) [] none =
      .error (.runtimeError ("Failed to get Cyborg accelerator requests")) :=
  C8_failure_kinds_distinct.2.1 ("dp2") [] (by decide)

/-- C1: when every ARQ has exactly one matching request group (all matching
groups carry the same single provider UUID P a), resolution returns every
ARQ with device_rp_uuid set to exactly that provider; and no successful call
ever returns an ARQ with an absent device_rp_uuid (no partial results). -/
theorem C1_resolution_assigns_unique_provider :
    (∀ (name : String) (arqs : List Arq) (rgs : List RequestGroup) (P : Arq → String),
      name ≠ "" →
      (∀ a ∈ arqs, ∃ rg ∈ rgs,
        rg.requester_id = get_device_profile_group_requester_id a.device_profile_group_id ∧
        rg.provider_uuids = [P a]) →
      (∀ a ∈ arqs, ∀ rg ∈ rgs,
        rg.requester_id = get_device_profile_group_requester_id a.device_profile_group_id →
        rg.provider_uuids = [P a]) →
      create_arqs_and_match_resource_providers (some name) rgs (some (some arqs)) =
        .ok (arqs.map (fun a => { a with device_rp_uuid := some (P a) }))) ∧
    (∀ (name : Option String) (rgs : List RequestGroup) (r : Option (Option (List Arq)))
      (out : List Arq),
      create_arqs_and_match_resource_providers name rgs r = .ok out →
      ∀ o ∈ out, o.device_rp_uuid ≠ none) := by
  constructor
  · intro name arqs rgs P hname hex hall
    have hinv : (name == "") = false := beq_eq_false_iff_ne.mpr hname
    have hloop : resolve_arqs_loop rgs arqs =
        .ok (arqs.map (fun a => { a with device_rp_uuid := some (P a) })) := by
      apply resolve_arqs_loop_ok
      intro a ha
      have hs : ∀ rg ∈ rgs,
          rg.requester_id = get_device_profile_group_requester_id a.device_profile_group_id →
          ∃ u, rg.provider_uuids = [u] :=
        fun rg hrg hkey => ⟨P a, hall a ha rg hrg hkey⟩
      have hex2 : ∃ rg ∈ rgs,
          rg.requester_id = get_device_profile_group_requester_id a.device_profile_group_id := by
        rcases hex a ha with ⟨rg, hrg, hkey, _⟩
        exact ⟨rg, hrg, hkey⟩
      obtain ⟨rg, hlm, heq⟩ := resolve_arq_eq hs hex2
      have hmm := last_match_mem hlm
      rw [hall a ha rg hmm.1 hmm.2] at heq
      exact heq
    simp only [create_arqs_and_match_resource_providers, create_arqs, py_name_invalid,
      hinv, if_false]
    exact hloop
  · intro name rgs r out h o ho
    unfold create_arqs_and_match_resource_providers at h
    cases hca : create_arqs name r with
    | error e => rw [hca] at h; cases h
    | ok v =>
      rw [hca] at h
      cases v with
      | none => cases h
      | some arqs =>
        obtain ⟨a, _, hres⟩ := resolve_arqs_loop_mem h o ho
        exact (resolve_arq_ok hres).1

/-- Witness for C1 at the documented example: one group with requester_id
device_profile_7 holding the single provider P, one ARQ of group 7. -/
theorem C1_resolution_witness :
    create_arqs_and_match_resource_providers (some ("mydp"))
      [⟨"device_profile_7", ["P"]⟩] (some (some [⟨7, none⟩])) =
      .ok ([(⟨7, none⟩ : Arq)].map (fun a => { a with device_rp_uuid := some ("P") })) :=
  C1_resolution_assigns_unique_provider.1 ("mydp") [⟨7, none⟩]
    [⟨"device_profile_7", ["P"]⟩] (fun _ => "P") (by decide)
    (by
      intro a ha
      have ha2 : a = (⟨7, none⟩ : Arq) := by simpa using ha
      subst ha2
      exact ⟨⟨"device_profile_7", ["P"]⟩, by simp, by decide, rfl⟩)
    (by
      intro a ha rg hrg hkey
      have ha2 : a = (⟨7, none⟩ : Arq) := by simpa using ha
      have hrg2 : rg = (⟨"device_profile_7", ["P"]⟩ : RequestGroup) := by simpa using hrg
      subst ha2
      subst hrg2
      rfl)

/-- C2 counterexample: with two request groups both matching the ARQ key
device_profile_7, the call does not fail fatally as the claim demands; it
succeeds and silently returns the last provider. -/
theorem C2_duplicate_match_counterexample :
    create_arqs_and_match_resource_providers (some ("mydp"))
      [⟨"device_profile_7", ["P1"]⟩, ⟨"device_profile_7", ["P2"]⟩]
      (some (some [⟨7, none⟩])) = .ok [⟨7, some ("P2")⟩] := by
  rfl

/-- C2 amended: a successful call never returns an ARQ with an absent
device_rp_uuid; an ARQ matching no request group makes the whole call fail;
a matching group carrying a provider list of length other than one makes the
whole call fail.  (Uniqueness of the matching group is not checked: see the
counterexample.) -/
theorem C2_correlation_failures_fatal_amended :
    (∀ (name : Option String) (rgs : List RequestGroup) (r : Option (Option (List Arq)))
      (out : List Arq),
      create_arqs_and_match_resource_providers name rgs r = .ok out →
      ∀ o ∈ out, o.device_rp_uuid ≠ none) ∧
    (∀ (name : String) (rgs : List RequestGroup) (arqs : List Arq),
      (∃ a ∈ arqs, ∀ rg ∈ rgs,
        rg.requester_id ≠ get_device_profile_group_requester_id a.device_profile_group_id) →
      ∃ e, create_arqs_and_match_resource_providers (some name) rgs (some (some arqs)) =
        .error e) ∧
    (∀ (name : String) (rgs : List RequestGroup) (arqs : List Arq),
      (∃ a ∈ arqs, ∃ rg ∈ rgs,
        rg.requester_id = get_device_profile_group_requester_id a.device_profile_group_id ∧
        rg.provider_uuids.length ≠ 1) →
      ∃ e, create_arqs_and_match_resource_providers (some name) rgs (some (some arqs)) =
        .error e) := by
  refine ⟨?_, ?_, ?_⟩
  · intro name rgs r out h o ho
    unfold create_arqs_and_match_resource_providers at h
    cases hca : create_arqs name r with
    | error e => rw [hca] at h; cases h
    | ok v =>
      rw [hca] at h
      cases v with
      | none => cases h
      | some arqs =>
        obtain ⟨a, _, hres⟩ := resolve_arqs_loop_mem h o ho
        exact (resolve_arq_ok hres).1
  · intro name rgs arqs h
    by_cases hinv : (name == "") = true
    · exact ⟨.runtimeError ("Device profile name is invalid " ++ name), by
        simp [create_arqs_and_match_resource_providers, create_arqs, py_name_invalid,
          py_str_name, hinv]⟩
    · rw [Bool.not_eq_true] at hinv
      rcases h with ⟨a, ha, hnone⟩
      have hres : resolve_arq rgs a = .error .assertionError := by
        have hs : ∀ rg ∈ rgs,
            rg.requester_id = get_device_profile_group_requester_id a.device_profile_group_id →
            ∃ u, rg.provider_uuids = [u] :=
          fun rg hrg hkey => absurd hkey (hnone rg hrg)
        unfold resolve_arq
        rw [scan_groups_eq rgs none hs]
        cases hlm : last_match
            (get_device_profile_group_requester_id a.device_profile_group_id) rgs with
        | none => rfl
        | some rg =>
          have hmm := last_match_mem hlm
          exact absurd hmm.2 (hnone rg hmm.1)
      obtain ⟨e2, he2⟩ := resolve_arqs_loop_error arqs ⟨a, ha, .assertionError, hres⟩
      exact ⟨e2, by
        simp only [create_arqs_and_match_resource_providers, create_arqs, py_name_invalid,
          hinv, if_false]
        exact he2⟩
  · intro name rgs arqs h
    by_cases hinv : (name == "") = true
    · exact ⟨.runtimeError ("Device profile name is invalid " ++ name), by
        simp [create_arqs_and_match_resource_providers, create_arqs, py_name_invalid,
          py_str_name, hinv]⟩
    · rw [Bool.not_eq_true] at hinv
      rcases h with ⟨a, ha, rg, hrg, hkey, hlen⟩
      obtain ⟨e, he⟩ := scan_groups_error rgs none ⟨rg, hrg, hkey, hlen⟩
      have hres : resolve_arq rgs a = .error e := by
        unfold resolve_arq
        rw [he]
      obtain ⟨e2, he2⟩ := resolve_arqs_loop_error arqs ⟨a, ha, e, hres⟩
      exact ⟨e2, by
        simp only [create_arqs_and_match_resource_providers, create_arqs, py_name_invalid,
          hinv, if_false]
        exact he2⟩

/-- Witness for C2 at an ARQ whose group id 9 matches no request group. -/
theorem C2_correlation_witness :
    ∃ e, create_arqs_and_match_resource_providers (some ("mydp")) []
      (some (some [⟨9, none⟩])) = .error e :=
  C2_correlation_failures_fatal_amended.2.1 ("mydp") [] [⟨9, none⟩]
    ⟨⟨9, none⟩, by simp, by intro rg hrg; simp at hrg⟩

/-- The provider UUID the overwriting scan leaves on an ARQ: the head of the
provider list of the last matching group. -/
def last_provider (key : String) (rgs : List RequestGroup) : Option String :=
  (last_match key rgs).bind (fun rg => rg.provider_uuids.head?)

/-- C10: with at least one matching group per ARQ and singleton provider
lists everywhere, the call never fails on duplicate matches: it scans all
groups and each ARQ receives the provider UUID of the last matching group in
iteration order, overwriting earlier matches. -/
theorem C10_last_matching_group_wins :
    ∀ (name : String) (arqs : List Arq) (rgs : List RequestGroup),
      name ≠ "" →
      (∀ a ∈ arqs, ∃ rg ∈ rgs,
        rg.requester_id = get_device_profile_group_requester_id a.device_profile_group_id) →
      (∀ rg ∈ rgs, ∃ u, rg.provider_uuids = [u]) →
      create_arqs_and_match_resource_providers (some name) rgs (some (some arqs)) =
        .ok (arqs.map (fun a =>
          { a with device_rp_uuid := (last_provider
              (get_device_profile_group_requester_id a.device_profile_group_id) rgs) })) := by
  intro name arqs rgs hname hmatch hsingle
  have hinv : (name == "") = false := beq_eq_false_iff_ne.mpr hname
  have hloop : resolve_arqs_loop rgs arqs = .ok (arqs.map (fun a =>
      { a with device_rp_uuid := (last_provider
          (get_device_profile_group_requester_id a.device_profile_group_id) rgs) })) := by
    apply resolve_arqs_loop_ok
    intro a ha
    have hs : ∀ rg ∈ rgs,
        rg.requester_id = get_device_profile_group_requester_id a.device_profile_group_id →
        ∃ u, rg.provider_uuids = [u] :=
      fun rg hrg _ => hsingle rg hrg
    obtain ⟨rg, hlm, heq⟩ := resolve_arq_eq hs (hmatch a ha)
    rw [heq]
    unfold last_provider
    rw [hlm]
    rfl
  simp only [create_arqs_and_match_resource_providers, create_arqs, py_name_invalid,
    hinv, if_false]
  exact hloop

/-- Witness for C10 at two groups both matching group id 3: the second
(last) provider PB wins. -/
theorem C10_last_matching_witness :
    create_arqs_and_match_resource_providers (some ("dpx"))
      [⟨"device_profile_3", ["PA"]⟩, ⟨"device_profile_3", ["PB"]⟩]
      (some (some [⟨3, none⟩])) =
      .ok ([(⟨3, none⟩ : Arq)].map (fun a =>
        { a with device_rp_uuid := (last_provider
            (get_device_profile_group_requester_id a.device_profile_group_id)
            [⟨"device_profile_3", ["PA"]⟩, ⟨"device_profile_3", ["PB"]⟩]) })) :=
  C10_last_matching_group_wins ("dpx") [⟨3, none⟩]
    [⟨"device_profile_3", ["PA"]⟩, ⟨"device_profile_3", ["PB"]⟩] (by decide)
    (by
      intro a ha
      have ha2 : a = (⟨3, none⟩ : Arq) := by simpa using ha
      subst ha2
      exact ⟨⟨"device_profile_3", ["PA"]⟩, by simp, by decide⟩)
    (by
      intro rg hrg
      rcases List.mem_cons.mp hrg with rfl | hrg2
      · exact ⟨"PA", rfl⟩
      · have : rg = (⟨"device_profile_3", ["PB"]⟩ : RequestGroup) := by simpa using hrg2
        subst this
        exact ⟨"PB", rfl⟩)

/-- C5 counterexample: the claimed round trip fails on the code.  The
mapping with resources1:CUSTOM_FOO=2 and trait1:CUSTOM_BAR=required
extracts to an empty group mapping — no Request Group under id 1 is ever
created, because neither CUSTOM_FOO nor CUSTOM_BAR carries one of the
CUSTOM_FPGA_/CUSTOM_QAT_/CUSTOM_CYBORG_ prefixes the code filters on. -/
theorem C5_round_trip_counterexample :
    extract_groups [("resources1:CUSTOM_FOO", "2"), ("trait1:CUSTOM_BAR", "required")] =
      .ok [] := by
  rfl

/-- C5 amended: entries whose captured name lacks the recognized
accelerator prefixes are dropped; trait entries with a recognized prefix
and the same numeric suffix land in the same lazily created, cached Request
Group under that suffix. -/
theorem C5_filtered_extraction_amended :
    extract_groups [("trait1:CUSTOM_CYBORG_FOO", "required"),
        ("trait1:CUSTOM_CYBORG_BAR", "required")] =
      .ok [(some ("1"),
        ⟨true, [], ["CUSTOM_CYBORG_FOO", "CUSTOM_CYBORG_BAR"]⟩)] ∧
    extract_groups [("resources1:CUSTOM_OTHER", "2")] = .ok [] := by
  constructor <;> rfl

/-- C6: contrary to the claim, a resources entry reaching the resources
branch is not dropped with a diagnostic: the branch evaluates the unbound
name ret (request.py line 285) and raises NameError before any amount
validation can run, for a negative amount as well as a non-numeric one. -/
theorem C6_resources_entry_raises :
    extract_groups [("resources1:CUSTOM_CYBORG_FOO", "-1")] =
      .error (.nameError ("ret")) ∧
    extract_groups [("resources1:CUSTOM_CYBORG_FOO", "abc")] =
      .error (.nameError ("ret")) := by
  constructor <;> rfl

/-- C9: the extraction pipeline is deterministic and performs no network
call: its result does not depend on the response the claim_fpgas branch
would fetch (that branch is dead because cyborg_resources always holds
exactly two entries), and running the extraction twice on the same mapping
yields structurally equal results. -/
theorem C9_extractor_deterministic_no_network :
    ∀ (specs : List (String × String)) (r1 r2 : Option (List (String × String))),
      get_pci_requests_from_flavor r1 specs = get_pci_requests_from_flavor r2 specs ∧
      extract_groups specs = extract_groups specs := by
  intro specs r1 r2
  refine ⟨?_, rfl⟩
  unfold get_pci_requests_from_flavor
  cases extract_groups specs with
  | error e => rfl
  | ok st => rfl
